import Mathlib

/-!
# SubTrack gateway and sync layer: a shallow embedding

This file embeds the access-gated synchronization core of the SubTrack
repository (src/cloudflare-worker.js) in Lean 4 and proves properties of it.

The embedding covers:
* the JSON data model used by the worker (a generic JSON value type; the
  key-value store adapter is treated as the capability interface storing JSON
  documents by key, as the system overview prescribes);
* `btoa` (base64 of a Latin-1 string) implemented concretely, since the
  credential scheme derives the session token via `btoa(env.PASSWORD)`;
* `parseCookies`, `checkAuth`, `handleLogin`, `handleAPI` from
  src/cloudflare-worker.js lines 39-160;
* `proxyToGitHub` (lines 107-150), instrumented with the list of upstream
  URLs fetched so that retry behaviour is observable;
* the client sync controller of the React `App` component (load effect,
  `isInitialMount` guard, `debouncedSave` with a 500 ms window), modelled as
  an explicit event-step machine with virtual time.
-/

namespace SubTrack

/-- A JSON value. Numbers are modelled as rationals (the claims under study
never depend on floating-point rounding). Objects are ordered field lists,
mirroring the structural equality JSON.stringify round-trips preserve. -/
inductive Json where
  | null : Json
  | bool (b : Bool) : Json
  | num (q : Rat) : Json
  | str (s : String) : Json
  | arr (elems : List Json) : Json
  | obj (fields : List (String × Json)) : Json

/-- JavaScript truthiness of a JSON value: `null`, `false`, `0` and the empty
string are falsy; arrays and objects are always truthy. Used to model the
`data || { jobs: [], payments: [] }` fallback in the GET handler. -/
def jsTruthy : Json → Bool
  | .null => false
  | .bool b => b
  | .num q => decide (q ≠ 0)
  | .str s => decide (s ≠ "")
  | .arr _ => true
  | .obj _ => true

/-! ## Base64 (`btoa`)

`btoa` maps each code unit (required to be at most U+00FF, else it throws) to
one byte and emits standard base64 with `=` padding. -/

/-- The base64 alphabet: index 0-25 ↦ A-Z, 26-51 ↦ a-z, 52-61 ↦ 0-9,
62 ↦ plus, 63 ↦ slash. -/
def b64Chr (n : Nat) : Char :=
  if n < 26 then Char.ofNat (65 + n)
  else if n < 52 then Char.ofNat (97 + (n - 26))
  else if n < 62 then Char.ofNat (48 + (n - 52))
  else if n = 62 then '+'
  else '/'

/-- Base64-encode a byte list (each entry below 256), with `=` padding. -/
def b64Encode : List Nat → List Char
  | [] => []
  | [a] => [b64Chr (a / 4), b64Chr (a % 4 * 16), '=', '=']
  | [a, b] => [b64Chr (a / 4), b64Chr (a % 4 * 16 + b / 16), b64Chr (b % 16 * 4), '=']
  | a :: b :: c :: rest =>
      b64Chr (a / 4) :: b64Chr (a % 4 * 16 + b / 16) :: b64Chr (b % 16 * 4 + c / 64)
        :: b64Chr (c % 64) :: b64Encode rest

/-- Inverse of the base64 alphabet (left inverse of `b64Chr` below 64). -/
def b64Val (c : Char) : Nat :=
  let n := c.toNat
  if 65 ≤ n ∧ n ≤ 90 then n - 65
  else if 97 ≤ n ∧ n ≤ 122 then n - 97 + 26
  else if 48 ≤ n ∧ n ≤ 57 then n - 48 + 52
  else if c = '+' then 62
  else 63

/-- Base64 decoding, the left inverse of `b64Encode` used to establish that
the encoding is injective (so distinct secrets mint distinct tokens). -/
def b64Decode : List Char → List Nat
  | c1 :: c2 :: c3 :: c4 :: rest =>
      if c3 = '=' then [b64Val c1 * 4 + b64Val c2 / 16]
      else if c4 = '=' then
        [b64Val c1 * 4 + b64Val c2 / 16, b64Val c2 % 16 * 16 + b64Val c3 / 4]
      else
        (b64Val c1 * 4 + b64Val c2 / 16) :: (b64Val c2 % 16 * 16 + b64Val c3 / 4)
          :: (b64Val c3 % 4 * 64 + b64Val c4) :: b64Decode rest
  | _ => []

theorem b64Val_b64Chr : ∀ n < 64, b64Val (b64Chr n) = n := by decide

theorem b64Chr_ne_pad : ∀ n < 64, b64Chr n ≠ '=' := by decide

theorem b64Decode_b64Encode :
    ∀ l : List Nat, (∀ x ∈ l, x < 256) → b64Decode (b64Encode l) = l
  | [], _ => rfl
  | [a], h => by
    have ha : a < 256 := h a (by simp)
    rw [show b64Encode [a] = [b64Chr (a / 4), b64Chr (a % 4 * 16), '=', '='] from rfl]
    rw [show b64Decode [b64Chr (a / 4), b64Chr (a % 4 * 16), '=', '=']
        = [b64Val (b64Chr (a / 4)) * 4 + b64Val (b64Chr (a % 4 * 16)) / 16] from rfl]
    rw [b64Val_b64Chr _ (by omega), b64Val_b64Chr _ (by omega)]
    have e1 : a / 4 * 4 + a % 4 * 16 / 16 = a := by omega
    rw [e1]
  | [a, b], h => by
    have ha : a < 256 := h a (by simp)
    have hb : b < 256 := h b (by simp)
    have h3 : b64Chr (b % 16 * 4) ≠ '=' := b64Chr_ne_pad _ (by omega)
    simp only [b64Encode, b64Decode, if_neg h3]
    simp only [if_true]
    rw [b64Val_b64Chr _ (by omega), b64Val_b64Chr _ (by omega), b64Val_b64Chr _ (by omega)]
    have e1 : a / 4 * 4 + (a % 4 * 16 + b / 16) / 16 = a := by omega
    have e2 : (a % 4 * 16 + b / 16) % 16 * 16 + b % 16 * 4 / 4 = b := by omega
    rw [e1, e2]
  | a :: b :: c :: rest, h => by
    have ha : a < 256 := h a (by simp)
    have hb : b < 256 := h b (by simp)
    have hc : c < 256 := h c (by simp)
    have hrest : ∀ x ∈ rest, x < 256 := fun x hx => h x (by simp [hx])
    simp only [b64Encode, b64Decode]
    rw [if_neg (b64Chr_ne_pad _ (by omega)), if_neg (b64Chr_ne_pad _ (by omega))]
    rw [b64Val_b64Chr _ (by omega), b64Val_b64Chr _ (by omega),
      b64Val_b64Chr _ (by omega), b64Val_b64Chr _ (by omega)]
    rw [b64Decode_b64Encode rest hrest]
    simp only [List.cons.injEq, and_true]
    refine ⟨by omega, by omega, by omega⟩

/-- JavaScript `btoa`. It succeeds exactly when every code unit of the input
is at most U+00FF (otherwise the platform throws InvalidCharacterError, which
the worker catches), and then returns the base64 encoding of the code units. -/
def btoa (s : String) : Option String :=
  if s.data.all (fun c => c.toNat < 256) then
    some (String.mk (b64Encode (s.data.map Char.toNat)))
  else none

theorem char_toNat_injective : Function.Injective Char.toNat := by
  intro a b h
  apply Char.ext
  exact UInt32.ext h

/-- `btoa` is injective on its domain: two strings with the same base64
encoding are equal. This is what makes a token minted from a different
secret fail validation. -/
theorem btoa_injective {s t u : String} (hs : btoa s = some u) (ht : btoa t = some u) :
    s = t := by
  unfold btoa at hs ht
  by_cases h1 : s.data.all (fun c => c.toNat < 256) = true
  · by_cases h2 : t.data.all (fun c => c.toNat < 256) = true
    · rw [if_pos h1] at hs
      rw [if_pos h2] at ht
      have henc : b64Encode (s.data.map Char.toNat) = b64Encode (t.data.map Char.toNat) := by
        have hcomb := Option.some.inj (hs.trans ht.symm)
        exact congrArg String.data hcomb
      have hb1 : ∀ x ∈ s.data.map Char.toNat, x < 256 := by
        intro x hx
        obtain ⟨c, hc, rfl⟩ := List.mem_map.mp hx
        exact of_decide_eq_true (List.all_eq_true.mp h1 c hc)
      have hb2 : ∀ x ∈ t.data.map Char.toNat, x < 256 := by
        intro x hx
        obtain ⟨c, hc, rfl⟩ := List.mem_map.mp hx
        exact of_decide_eq_true (List.all_eq_true.mp h2 c hc)
      have hmap : s.data.map Char.toNat = t.data.map Char.toNat := by
        rw [← b64Decode_b64Encode (s.data.map Char.toNat) hb1,
          ← b64Decode_b64Encode (t.data.map Char.toNat) hb2, henc]
      have hdata : s.data = t.data :=
        List.map_injective_iff.mpr char_toNat_injective hmap
      cases s; cases t; simp_all
    · rw [if_neg h2] at ht
      exact absurd ht (by simp)
  · rw [if_neg h1] at hs
    exact absurd hs (by simp)

/-- A nonempty byte list has a nonempty base64 encoding. -/
theorem b64Encode_ne_nil {l : List Nat} (h : l ≠ []) : b64Encode l ≠ [] := by
  match l with
  | [] => exact absurd rfl h
  | [a] => simp [b64Encode]
  | [a, b] => simp [b64Encode]
  | a :: b :: c :: rest => simp [b64Encode]

/-- The token encoded from a nonempty secret is nonempty. -/
theorem btoa_ne_empty {s t : String} (hs : s ≠ "") (h : btoa s = some t) : t ≠ "" := by
  unfold btoa at h
  by_cases h1 : s.data.all (fun c => c.toNat < 256) = true
  · rw [if_pos h1] at h
    have hdata : s.data ≠ [] := by
      intro hd
      apply hs
      cases s
      simp_all
    have henc : b64Encode (s.data.map Char.toNat) ≠ [] :=
      b64Encode_ne_nil (by simpa using hdata)
    intro ht
    subst ht
    have : b64Encode (s.data.map Char.toNat) = [] := congrArg String.data (Option.some.inj h)
    exact henc this
  · rw [if_neg h1] at h
    exact absurd h (by simp)

/-! ## Cookie parsing and the session authenticator

From src/cloudflare-worker.js lines 6-9, 39-49, 51-69, 152-160. -/

/-- The fixed auth cookie name (line 6). -/
def COOKIE_NAME : String := "subtrack_auth"

/-- Cookie lifetime in seconds: 30 days (line 7). -/
def COOKIE_MAX_AGE : Nat := 60 * 60 * 24 * 30

/-- Split a character list at every occurrence of a separator, keeping empty
segments, as JavaScript `String.prototype.split` does with a one-character
separator (both separators in the worker, `;` and `=`, are one character). -/
def splitChars (sep : Char) : List Char → List (List Char)
  | [] => [[]]
  | c :: rest =>
    let r := splitChars sep rest
    if c = sep then [] :: r
    else
      match r with
      | [] => [[c]]
      | h :: t => (c :: h) :: t

/-- JavaScript `s.split(sep)` for a one-character separator. -/
def jsSplit (sep : Char) (s : String) : List String :=
  (splitChars sep s.data).map String.mk

/-- JavaScript whitespace as far as `String.prototype.trim` is concerned for
the characters that can occur in a Cookie header. -/
def isJsWhitespace (c : Char) : Bool :=
  c = ' ' || c = '\t' || c = '\n' || c = '\r'

/-- JavaScript `s.trim()`: strip leading and trailing whitespace. -/
def jsTrim (s : String) : String :=
  String.mk (((s.data.dropWhile isJsWhitespace).reverse.dropWhile isJsWhitespace).reverse)

/-- JavaScript `parts.join(sep)`. -/
def jsJoin (sep : String) : List String → String
  | [] => ""
  | [x] => x
  | x :: rest => x ++ sep ++ jsJoin sep rest

/-- JavaScript `s.startsWith(pre)`. -/
def strStartsWith (s pre : String) : Bool :=
  pre.data.isPrefixOf s.data

/-- JavaScript `s.includes(c)` for a one-character needle. -/
def strContains (s : String) (c : Char) : Bool :=
  s.data.contains c

/-- `parseCookies` (lines 152-160): split the header on semicolons, trim each
piece, split it on the equals signs, rejoin everything after the first one,
skip pieces with an empty name, and record name/value pairs in order.
Successive assignments to the same name in the JavaScript object are
modelled by keeping all pairs and letting `jsGet` return the last one. -/
def parseCookies (header : String) : List (String × String) :=
  if header = "" then []
  else
    (jsSplit ';' header).foldl
      (fun acc c =>
        match jsSplit '=' (jsTrim c) with
        | [] => acc
        | n :: r => if n = "" then acc else acc ++ [(n, jsJoin "=" r)])
      []

/-- Property lookup on a JavaScript object built by successive assignments:
the last assignment to a key wins. -/
def jsGet (obj : List (String × String)) (k : String) : Option String :=
  obj.foldl (fun acc p => if p.1 = k then some p.2 else acc) none

/-- The worker environment: the configured shared secret (`env.PASSWORD`,
which deployment may leave unset) and the key-value store binding
(`env.SUBTRACK_DATA`), modelled as the capability interface the design
prescribes: an association of string keys to stored JSON documents. -/
structure Env where
  password : Option String
  store : List (String × Json)

/-- KV get by key (`env.SUBTRACK_DATA.get(key, 'json')`): the most recently
put value for the key, if any. -/
def kvGet : List (String × Json) → String → Option Json
  | [], _ => none
  | (k', v) :: rest, k => if k' = k then some v else kvGet rest k

/-- KV put (`env.SUBTRACK_DATA.put(key, JSON.stringify(v))`): overwrite the
value under the key. The new pair is prepended; `kvGet` returns the newest. -/
def kvPut (st : List (String × Json)) (k : String) (v : Json) : List (String × Json) :=
  (k, v) :: st

/-- `env.PASSWORD` as it reaches `btoa`: WebIDL DOMString conversion turns an
absent (undefined) binding into the literal string "undefined"; `btoa` then
encodes that string (it throws only on code units above U+00FF, so an absent
secret does not throw). -/
def jsStringOfPassword : Option String → String
  | none => "undefined"
  | some s => s

/-- An incoming API request: method, path, the Cookie header if present, and
the result of `await request.json()` on the body (a parsed document or the
thrown parse-error message). -/
structure ApiRequest where
  method : String
  pathname : String
  cookieHeader : Option String
  body : Except String Json

/-- `checkAuth` (lines 39-49): parse the Cookie header (empty string when the
header is absent), look up the auth cookie; a missing or empty token is falsy
and yields false; otherwise compare the token with `btoa(env.PASSWORD)`,
returning false if `btoa` throws. -/
def checkAuth (req : ApiRequest) (env : Env) : Bool :=
  let cookies := parseCookies (req.cookieHeader.getD "")
  match jsGet cookies COOKIE_NAME with
  | none => false
  | some authToken =>
    if authToken = "" then false
    else
      match btoa (jsStringOfPassword env.password) with
      | some expectedToken => decide (authToken = expectedToken)
      | none => false

/-- Result of the login endpoint: a 302 redirect to the root carrying a
Set-Cookie header, or the login page re-rendered with an error string. -/
inductive LoginResult where
  | redirect (setCookie : String)
  | loginPage (error : String)

/-- The Set-Cookie header value minted on successful login (line 61). -/
def setCookieValue (token : String) : String :=
  COOKIE_NAME ++ "=" ++ token ++ "; Path=/; HttpOnly; Secure; SameSite=Strict; Max-Age="
    ++ toString COOKIE_MAX_AGE

/-- `handleLogin` (lines 51-69). The argument is the outcome of
`request.formData()` followed by `formData.get('password')`: a parse failure
message, or the submitted password field (absent fields give null, modelled
as `none`). Strict equality `password === env.PASSWORD` holds only when both
are strings and equal. If `btoa` throws on the configured secret the outer
catch renders the login page with the exception message. -/
def handleLogin (form : Except String (Option String)) (env : Env) : LoginResult :=
  match form with
  | .error e => .loginPage ("Login failed: " ++ e)
  | .ok formPassword =>
    match formPassword, env.password with
    | some p, some s =>
      if p = s then
        match btoa s with
        | some token => .redirect (setCookieValue token)
        | none => .loginPage "Login failed: Invalid character"
      else .loginPage "Invalid password"
    | _, _ => .loginPage "Invalid password"

/-! ## Data API handler

From src/cloudflare-worker.js lines 81-105. -/

/-- A response body: either a JSON document (`JSON.stringify` of a value) or
plain text. -/
inductive RBody where
  | json (j : Json) : RBody
  | text (s : String) : RBody

/-- A worker response. `new Response(body)` without an explicit status
defaults to 200. -/
structure WResponse where
  status : Nat
  headers : List (String × String)
  body : RBody

/-- The empty-collections document `{ jobs: [], payments: [] }` that GET
falls back to (line 90). -/
def emptyDataset : Json :=
  Json.obj [("jobs", Json.arr []), ("payments", Json.arr [])]

/-- `handleAPI` (lines 81-105): re-check authentication; on `/api/data`, GET
reads the stored document under the fixed key `user_data` (the JavaScript
`data || {jobs: [], payments: []}` replaces a missing or falsy document by
the empty-collections shape), POST stores the parsed body verbatim and
acknowledges, a body parse failure yields 400 with the message; everything
else under the API namespace is 404 "Not found". Returns the response
together with the resulting store. -/
def handleAPI (req : ApiRequest) (env : Env) : WResponse × List (String × Json) :=
  if checkAuth req env = false then
    ({ status := 401, headers := [],
       body := .json (Json.obj [("error", Json.str "Unauthorized")]) }, env.store)
  else if req.pathname = "/api/data" then
    if req.method = "GET" then
      let data := kvGet env.store "user_data"
      let doc := match data with
        | some j => if jsTruthy j then j else emptyDataset
        | none => emptyDataset
      ({ status := 200, headers := [("Content-Type", "application/json")],
         body := .json doc }, env.store)
    else if req.method = "POST" then
      match req.body with
      | .ok data =>
        ({ status := 200, headers := [], body := .json (Json.obj [("success", Json.bool true)]) },
         kvPut env.store "user_data" data)
      | .error e =>
        ({ status := 400, headers := [], body := .json (Json.obj [("error", Json.str e)]) },
         env.store)
    else ({ status := 404, headers := [], body := .text "Not found" }, env.store)
  else ({ status := 404, headers := [], body := .text "Not found" }, env.store)

/-! ## Static content proxy

From src/cloudflare-worker.js lines 8-9 and 107-150. The upstream origin is
modelled as an oracle from the fetched URL to either a response or a thrown
network error message; the proxy is instrumented with the list of upstream
URLs it fetches, in order, so that retry behaviour is observable. -/

/-- Upstream origin host (line 8). -/
def GITHUB_ORIGIN : String := "https://panpapadopoulos.github.io"

/-- Upstream path root (line 9). -/
def GITHUB_PATH : String := "/subtrack"

/-- An upstream response as seen by `fetch`. -/
structure UpstreamResp where
  status : Nat
  headers : List (String × String)
  body : String

/-- `Response.ok`: status in the 200-299 range. -/
def respOk (r : UpstreamResp) : Bool :=
  decide (200 ≤ r.status) && decide (r.status ≤ 299)

/-- Header rewriting on a successful proxied response (lines 138-141): drop
the frame-embedding and content-security-policy headers and stamp the proxy
marker. -/
def rewriteHeaders (hs : List (String × String)) : List (String × String) :=
  (hs.filter (fun p => p.1 ≠ "X-Frame-Options" ∧ p.1 ≠ "Content-Security-Policy"))
    ++ [("X-Proxied-By", "SubTrack-Proxy")]

/-- The URL of the fixed index document used by the 404 fallback fetch
(line 128). -/
def indexUrl : String := GITHUB_ORIGIN ++ GITHUB_PATH ++ "/index.html"

/-- Path normalization (lines 108-113): the root path, or any path without a
dot, becomes the fixed index document path. -/
def normalizePath (pathname : String) : String :=
  if pathname = "/" ∨ strContains pathname '.' = false then "/index.html" else pathname

/-- The upstream URL of the first fetch (line 115): origin plus path root
plus the normalized path. -/
def githubUrlOf (pathname : String) : String :=
  GITHUB_ORIGIN ++ GITHUB_PATH ++ normalizePath pathname

/-- `proxyToGitHub` (lines 107-150). The pathname is normalized first, then
fetched from the upstream. On a non-ok response, the 404-with-no-dot branch
(lines 127-131) re-fetches the index document and returns that second
response unmodified — note the dot test is made on the already normalized
path; any other non-ok status becomes a plaintext `Origin Error` diagnostic
carrying the upstream status. On an ok response the headers are rewritten.
A thrown fetch is caught and becomes a 502 `Worker Exception` diagnostic.
Returns the response paired with the list of upstream URLs fetched. -/
def proxyToGitHub (pathname : String) (upstream : String → Except String UpstreamResp) :
    WResponse × List String :=
  match upstream (githubUrlOf pathname) with
  | .error e =>
    ({ status := 502, headers := [], body := .text ("Worker Exception: " ++ e) },
     [githubUrlOf pathname])
  | .ok response =>
    if respOk response = false then
      if response.status = 404 ∧ strContains (normalizePath pathname) '.' = false then
        match upstream indexUrl with
        | .ok retry =>
          ({ status := retry.status, headers := retry.headers, body := .text retry.body },
           [githubUrlOf pathname, indexUrl])
        | .error e =>
          ({ status := 502, headers := [], body := .text ("Worker Exception: " ++ e) },
           [githubUrlOf pathname, indexUrl])
      else
        ({ status := response.status, headers := [("Content-Type", "text/plain")],
           body := .text ("Origin Error: " ++ toString response.status ++ " for "
             ++ githubUrlOf pathname) },
         [githubUrlOf pathname])
    else
      ({ status := response.status, headers := rewriteHeaders response.headers,
         body := .text response.body }, [githubUrlOf pathname])

/-! ## Client sync controller

From the React `App` component in the repository (the source after the
worker in src/cloudflare-worker.js) and src/types.ts. The component state
that matters for persistence is: the working dataset (`jobs`, `payments`),
the `isLoading` flag, the `isInitialMount` ref, and the debounce timer ref.

React semantics encoded by the step function:
* every effect runs once after the mount render; the save effect therefore
  runs at mount, where the `isInitialMount` guard fires and clears the ref;
* the save effect re-runs after any later render in which one of its
  dependencies `[jobs, payments, isLoading, debouncedSave]` changed — in
  particular after the render triggered by the load effect completing
  (`setJobs`/`setPayments`/`setIsLoading(false)`), and after every local
  mutation;
* `debouncedSave` clears any pending timer and schedules `saveData` with the
  jobs and payments captured at scheduling time, 500 ms later;
* time passing fires a due timer, appending the captured payload to the log
  of `saveData` network writes.
-/

/-- A work assignment record (src/types.ts). -/
structure Job where
  id : String
  date : String
  className : String
  teacher : String
  school : String
  town : String
  dayType : Rat
  fromTime : String
  toTime : String
  hours : Rat

/-- A payment record (src/types.ts). -/
structure Payment where
  id : String
  date : String
  town : String
  amount : Rat

/-- The client working dataset: the `jobs` and `payments` component state. -/
structure AppData where
  jobs : List Job
  payments : List Payment

/-- The persistence-relevant component state. `timer` is the pending
debounced save: absolute fire time and the payload captured at scheduling;
`saves` logs every `saveData` network write as (time issued, payload). -/
structure SyncState where
  data : AppData
  isLoading : Bool
  isInitialMount : Bool
  timer : Option (Nat × AppData)
  now : Nat
  saves : List (Nat × AppData)

/-- `debouncedSave` (App component): `clearTimeout` on any pending timer,
then `setTimeout(..., 500)` capturing the current jobs and payments. -/
def debouncedSave (s : SyncState) : SyncState :=
  { s with timer := some (s.now + 500, s.data) }

/-- The save effect body: if the `isInitialMount` ref is set, clear it and
return; otherwise, when not loading, call `debouncedSave` with the current
dataset. -/
def saveEffect (s : SyncState) : SyncState :=
  if s.isInitialMount then { s with isInitialMount := false }
  else if s.isLoading = false then debouncedSave s
  else s

/-- An event in the life of the component: the initial fetch resolving with
a dataset (`setJobs`/`setPayments`/`setIsLoading(false)`, one render), a
local mutation of the working dataset (any handler built on `setJobs` or
`setPayments`), or the passage of time. -/
inductive SyncEvent where
  | loadComplete (d : AppData)
  | mutate (f : AppData → AppData)
  | tick (ms : Nat)

/-- Fire the debounce timer if it has come due: issue the `saveData` call
with the captured payload and clear the timer. -/
def fireTimer (s : SyncState) : SyncState :=
  match s.timer with
  | some (tf, payload) =>
    if tf ≤ s.now then { s with timer := none, saves := s.saves ++ [(tf, payload)] }
    else s
  | none => s

/-- One step of the component: state updates followed by the save effect
re-running (its dependency array changed), or time passing. -/
def syncStep (s : SyncState) : SyncEvent → SyncState
  | .loadComplete d => saveEffect { s with data := d, isLoading := false }
  | .mutate f => saveEffect { s with data := f s.data }
  | .tick ms => fireTimer { s with now := s.now + ms }

/-- The state after the mount render: empty working dataset, loading, and
the save effect already run once (consuming the `isInitialMount` guard). -/
def syncInit : SyncState :=
  saveEffect
    { data := ⟨[], []⟩, isLoading := true, isInitialMount := true,
      timer := none, now := 0, saves := [] }

/-- Run the component from mount through a list of events. -/
def syncRun (events : List SyncEvent) : SyncState :=
  events.foldl syncStep syncInit

/-! ## Theorems: the data API handler -/

/-- C6: every request to `/api/data` that does not carry a valid credential
receives status 401 with the structured body `{error: "Unauthorized"}`, and
the stored dataset is unchanged by the request. -/
theorem C6_unauthenticated_api_rejected (req : ApiRequest) (env : Env)
    (_hpath : req.pathname = "/api/data")
    (hauth : checkAuth req env = false) :
    handleAPI req env
      = ({ status := 401, headers := [],
           body := .json (Json.obj [("error", Json.str "Unauthorized")]) }, env.store) := by
  unfold handleAPI
  rw [hauth]
  simp

/-- Concrete request carrying no Cookie header. -/
def reqNoCookie : ApiRequest := ⟨"GET", "/api/data", none, Except.error "x"⟩

/-- Concrete environment: configured secret "pw", empty store. -/
def envPw : Env := ⟨some "pw", []⟩

theorem C6_witness :
    handleAPI reqNoCookie envPw
      = ({ status := 401, headers := [],
           body := .json (Json.obj [("error", Json.str "Unauthorized")]) }, envPw.store) :=
  C6_unauthenticated_api_rejected reqNoCookie envPw rfl (by decide)

/-- C5: an authenticated POST to `/api/data` whose body fails to parse as
JSON receives status 400 with the error message in a JSON body, and the
previously stored dataset is left completely unchanged. -/
theorem C5_malformed_body_rejected (req : ApiRequest) (env : Env) (e : String)
    (hauth : checkAuth req env = true) (hpath : req.pathname = "/api/data")
    (hmethod : req.method = "POST") (hbody : req.body = Except.error e) :
    handleAPI req env
      = ({ status := 400, headers := [],
           body := .json (Json.obj [("error", Json.str e)]) }, env.store) := by
  unfold handleAPI
  rw [hauth, hpath, hmethod, hbody]
  simp

/-- Concrete authenticated POST whose body failed to parse. The cookie value
is `btoa "pw"`. -/
def reqBadBody : ApiRequest :=
  ⟨"POST", "/api/data", some "subtrack_auth=cHc=", Except.error "Unexpected token"⟩

theorem C5_witness :
    handleAPI reqBadBody envPw
      = ({ status := 400, headers := [],
           body := .json (Json.obj [("error", Json.str "Unexpected token")]) }, envPw.store) :=
  C5_malformed_body_rejected reqBadBody envPw "Unexpected token" (by decide) rfl rfl rfl

/-- C8: an authenticated GET of `/api/data` issued while the fixed storage
key is absent from the key-value store returns the empty-collections
document `{jobs: [], payments: []}` with status 200. -/
theorem C8_get_on_empty_store (req : ApiRequest) (env : Env)
    (hauth : checkAuth req env = true) (hpath : req.pathname = "/api/data")
    (hmethod : req.method = "GET") (habsent : kvGet env.store "user_data" = none) :
    handleAPI req env
      = ({ status := 200, headers := [("Content-Type", "application/json")],
           body := .json emptyDataset }, env.store) := by
  unfold handleAPI
  rw [hauth, hpath, hmethod, habsent]
  simp

/-- Concrete authenticated GET against the empty store. -/
def reqGetData : ApiRequest :=
  ⟨"GET", "/api/data", some "subtrack_auth=cHc=", Except.error "x"⟩

theorem C8_witness :
    handleAPI reqGetData envPw
      = ({ status := 200, headers := [("Content-Type", "application/json")],
           body := .json emptyDataset }, envPw.store) :=
  C8_get_on_empty_store reqGetData envPw (by decide) rfl rfl rfl

/-- C10: an authenticated request under the `/api/` namespace whose path is
not `/api/data`, or whose method on `/api/data` is neither GET nor POST,
receives status 404 with the plaintext body "Not found", and the stored
dataset is unchanged. -/
theorem C10_api_fallthrough_not_found (req : ApiRequest) (env : Env)
    (hauth : checkAuth req env = true)
    (_hapi : strStartsWith req.pathname "/api/" = true)
    (hother : req.pathname ≠ "/api/data" ∨ (req.method ≠ "GET" ∧ req.method ≠ "POST")) :
    handleAPI req env
      = ({ status := 404, headers := [], body := .text "Not found" }, env.store) := by
  unfold handleAPI
  rw [hauth]
  rcases hother with hp | ⟨hg, hpst⟩
  · rw [if_neg (by simp), if_neg hp]
  · by_cases hp : req.pathname = "/api/data"
    · rw [if_neg (by simp), if_pos hp, if_neg hg, if_neg hpst]
    · rw [if_neg (by simp), if_neg hp]

/-- Concrete authenticated DELETE of `/api/data`. -/
def reqDelete : ApiRequest :=
  ⟨"DELETE", "/api/data", some "subtrack_auth=cHc=", Except.error "x"⟩

theorem C10_witness :
    handleAPI reqDelete envPw
      = ({ status := 404, headers := [], body := .text "Not found" }, envPw.store) :=
  C10_api_fallthrough_not_found reqDelete envPw (by decide) (by decide)
    (Or.inr ⟨by decide, by decide⟩)

/-- C3: an authenticated PutDataset of a document of the shape
`{jobs: [...], payments: [...]}` immediately followed by an authenticated
GetDataset returns a document structurally equal to the one stored: the
write/read round-trip on the single fixed storage key. -/
theorem C3_put_get_roundtrip (reqP reqG : ApiRequest) (env : Env) (js ps : List Json)
    (hauthP : checkAuth reqP env = true)
    (hpathP : reqP.pathname = "/api/data") (hmethP : reqP.method = "POST")
    (hbody : reqP.body = Except.ok (Json.obj [("jobs", Json.arr js), ("payments", Json.arr ps)]))
    (hauthG : checkAuth reqG { env with store := (handleAPI reqP env).2 } = true)
    (hpathG : reqG.pathname = "/api/data") (hmethG : reqG.method = "GET") :
    (handleAPI reqG { env with store := (handleAPI reqP env).2 }).1
      = { status := 200, headers := [("Content-Type", "application/json")],
          body := .json (Json.obj [("jobs", Json.arr js), ("payments", Json.arr ps)]) } := by
  have hstore : (handleAPI reqP env).2
      = kvPut env.store "user_data"
          (Json.obj [("jobs", Json.arr js), ("payments", Json.arr ps)]) := by
    unfold handleAPI
    rw [hauthP, hpathP, hmethP, hbody]
    simp
  rw [hstore] at hauthG ⊢
  unfold handleAPI
  rw [hauthG, hpathG, hmethG]
  simp [kvPut, kvGet, jsTruthy]

/-- Concrete dataset document used in the round-trip witness. -/
def docW : Json :=
  Json.obj [("jobs", Json.arr [Json.str "job1"]), ("payments", Json.arr [Json.num 250])]

/-- Concrete authenticated POST of `docW`. -/
def reqPutW : ApiRequest := ⟨"POST", "/api/data", some "subtrack_auth=cHc=", Except.ok docW⟩

theorem C3_witness :
    (handleAPI reqGetData { envPw with store := (handleAPI reqPutW envPw).2 }).1
      = { status := 200, headers := [("Content-Type", "application/json")],
          body := .json (Json.obj [("jobs", Json.arr [Json.str "job1"]),
                                   ("payments", Json.arr [Json.num 250])]) } :=
  C3_put_get_roundtrip reqPutW reqGetData envPw [Json.str "job1"] [Json.num 250]
    (by decide) rfl rfl rfl (by decide) rfl rfl

/-! ## Theorems: the session authenticator -/

/-- Characterization of `checkAuth` when no auth cookie is found. -/
theorem checkAuth_no_token (req : ApiRequest) (env : Env)
    (h : jsGet (parseCookies (req.cookieHeader.getD "")) COOKIE_NAME = none) :
    checkAuth req env = false := by
  simp only [checkAuth, h]

/-- Characterization of `checkAuth` when an auth cookie with value `tok` is
found. -/
theorem checkAuth_token (req : ApiRequest) (env : Env) (tok : String)
    (h : jsGet (parseCookies (req.cookieHeader.getD "")) COOKIE_NAME = some tok) :
    checkAuth req env
      = if tok = "" then false
        else
          match btoa (jsStringOfPassword env.password) with
          | some expectedToken => decide (tok = expectedToken)
          | none => false := by
  simp only [checkAuth, h]

/-- C4 counterexample: with the configured secret equal to the empty string,
login with the (correct) empty password succeeds and mints the empty token
(`btoa "" = ""`), but presenting that token back fails validation, because
`checkAuth` treats an empty cookie value as falsy and rejects it. So it is
not the case that for every configured secret the issued credential
validates true, nor that validation returns true whenever the presented
token equals the encoding of the configured secret. -/
theorem C4_counterexample :
    handleLogin (Except.ok (some "")) ⟨some "", []⟩
        = LoginResult.redirect (setCookieValue "")
  ∧ checkAuth ⟨"GET", "/", some "subtrack_auth=", Except.error ""⟩ ⟨some "", []⟩ = false := by
  exact ⟨rfl, by decide⟩

/-- C4 (amended): for every configured secret that is nonempty and
base64-encodable, the credential minted by a successful login validates
true while that secret is configured; a token minted from a different
encodable secret validates false; and validation returns true exactly when
the presented auth cookie value equals the base64 encoding of the configured
secret. (For the empty secret the issued empty token is rejected as falsy.) -/
theorem C4_credential_validation (S Sx t tx : String) (st : List (String × Json))
    (ht : btoa S = some t) (htx : btoa Sx = some tx)
    (hS : S ≠ "") (hne : Sx ≠ S) :
    handleLogin (Except.ok (some S)) ⟨some S, st⟩ = LoginResult.redirect (setCookieValue t)
  ∧ (∀ req : ApiRequest,
      jsGet (parseCookies (req.cookieHeader.getD "")) COOKIE_NAME = some t →
      checkAuth req ⟨some S, st⟩ = true)
  ∧ (∀ req : ApiRequest,
      jsGet (parseCookies (req.cookieHeader.getD "")) COOKIE_NAME = some tx →
      checkAuth req ⟨some S, st⟩ = false)
  ∧ (∀ req : ApiRequest,
      checkAuth req ⟨some S, st⟩ = true ↔
      jsGet (parseCookies (req.cookieHeader.getD "")) COOKIE_NAME = some t) := by
  have htne : t ≠ "" := btoa_ne_empty hS ht
  have htxt : tx ≠ t := by
    intro h
    subst h
    exact hne (btoa_injective htx ht)
  refine ⟨?_, ?_, ?_, ?_⟩
  · simp [handleLogin, ht]
  · intro req hreq
    rw [checkAuth_token req _ t hreq]
    simp only [jsStringOfPassword, ht]
    rw [if_neg htne]
    simp
  · intro req hreq
    rw [checkAuth_token req _ tx hreq]
    simp only [jsStringOfPassword, ht]
    by_cases hx : tx = ""
    · rw [if_pos hx]
    · rw [if_neg hx]
      simp [htxt]
  · intro req
    cases hreq : jsGet (parseCookies (req.cookieHeader.getD "")) COOKIE_NAME with
    | none =>
      rw [checkAuth_no_token req _ hreq]
      simp
    | some tok =>
      rw [checkAuth_token req _ tok hreq]
      simp only [jsStringOfPassword, ht]
      by_cases hk : tok = ""
      · subst hk
        simp [Ne.symm htne]
      · rw [if_neg hk]
        simp

/-- C4 witness: with the configured secret "pw" (token "cHc=") and the
distinct secret "qw" (token "cXc="), a request presenting "cHc=" validates
true and a request presenting "cXc=" validates false. -/
theorem C4_witness :
    checkAuth ⟨"GET", "/", some "subtrack_auth=cHc=", Except.error ""⟩ ⟨some "pw", []⟩ = true
  ∧ checkAuth ⟨"GET", "/", some "subtrack_auth=cXc=", Except.error ""⟩ ⟨some "pw", []⟩ = false :=
  ⟨(C4_credential_validation "pw" "qw" "cHc=" "cXc=" [] (by decide) (by decide)
      (by decide) (by decide)).2.1 _ (by decide),
   (C4_credential_validation "pw" "qw" "cHc=" "cXc=" [] (by decide) (by decide)
      (by decide) (by decide)).2.2.1 _ (by decide)⟩

/-- C9 counterexample: when the configured secret is absent, `checkAuth`
does not always return false: `btoa(env.PASSWORD)` coerces the undefined
binding to the string "undefined" (WebIDL DOMString conversion; `btoa`
throws only on code units above U+00FF), so a request presenting the cookie
value `btoa "undefined" = "dW5kZWZpbmVk"` is accepted. -/
theorem C9_counterexample :
    checkAuth ⟨"GET", "/api/data", some "subtrack_auth=dW5kZWZpbmVk", Except.error ""⟩
        ⟨none, []⟩ = true := by
  decide

/-- C9 (amended): `checkAuth` is total and returns a boolean for every
request and configuration, never propagating an exception: it returns false
when the Cookie header is missing, when no cookie with the fixed auth name
is present, and when the configured secret cannot be base64-encoded (`btoa`
throws and the catch yields false). When the configured secret is absent,
`checkAuth` compares the presented token against the encoding of the coerced
string "undefined", returning true exactly for the token "dW5kZWZpbmVk" and
false otherwise. -/
theorem C9_checkAuth_totality :
    (∀ (req : ApiRequest) (env : Env), req.cookieHeader = none → checkAuth req env = false)
  ∧ (∀ (req : ApiRequest) (env : Env),
      jsGet (parseCookies (req.cookieHeader.getD "")) COOKIE_NAME = none →
      checkAuth req env = false)
  ∧ (∀ (req : ApiRequest) (env : Env) (s : String), env.password = some s →
      btoa s = none → checkAuth req env = false)
  ∧ (∀ (req : ApiRequest) (env : Env), env.password = none →
      (checkAuth req env = true ↔
        jsGet (parseCookies (req.cookieHeader.getD "")) COOKIE_NAME
          = some "dW5kZWZpbmVk")) := by
  refine ⟨?_, ?_, ?_, ?_⟩
  · intro req env h
    apply checkAuth_no_token
    rw [h]
    rfl
  · intro req env h
    exact checkAuth_no_token req env h
  · intro req env s hp hb
    cases hreq : jsGet (parseCookies (req.cookieHeader.getD "")) COOKIE_NAME with
    | none => exact checkAuth_no_token req env hreq
    | some tok =>
      rw [checkAuth_token req env tok hreq, hp]
      simp only [jsStringOfPassword, hb]
      by_cases hk : tok = ""
      · rw [if_pos hk]
      · rw [if_neg hk]
  · intro req env hp
    have hb : btoa "undefined" = some "dW5kZWZpbmVk" := by decide
    cases hreq : jsGet (parseCookies (req.cookieHeader.getD "")) COOKIE_NAME with
    | none =>
      rw [checkAuth_no_token req env hreq]
      simp
    | some tok =>
      rw [checkAuth_token req env tok hreq, hp]
      simp only [jsStringOfPassword, hb]
      by_cases hk : tok = ""
      · subst hk
        simp
      · rw [if_neg hk]
        simp

/-- C9 witness: a request with no Cookie header is rejected. -/
theorem C9_witness : checkAuth reqNoCookie envPw = false :=
  C9_checkAuth_totality.1 reqNoCookie envPw rfl

/-! ## Theorems: the static content proxy -/

/-- Project the plain-text content out of a response body. -/
def bodyText : RBody → Option String
  | .text s => some s
  | .json _ => none

/-- An upstream that answers 404 with a recognizable body to every URL. -/
def upAll404 : String → Except String UpstreamResp :=
  fun _ => Except.ok ⟨404, [], "UPSTREAM-404-BODY"⟩

/-- C1 counterexample: for the extensionless path `/dashboard` with an
upstream that answers 404 everywhere, the proxy performs exactly one
upstream fetch — already against the index document URL — and the caller
receives the proxy's own plaintext `Origin Error: 404` diagnostic, not the
response of any retry (the upstream body is never surfaced). The claimed
behaviour — first fetch the requested path, then on 404 retry once against
the index path and surface that retry's response — does not occur. -/
theorem C1_counterexample :
    (proxyToGitHub "/dashboard" upAll404).2 = [indexUrl]
  ∧ (proxyToGitHub "/dashboard" upAll404).2.length = 1
  ∧ bodyText (proxyToGitHub "/dashboard" upAll404).1.body
      = some ("Origin Error: 404 for " ++ indexUrl)
  ∧ bodyText (proxyToGitHub "/dashboard" upAll404).1.body ≠ some "UPSTREAM-404-BODY" := by
  refine ⟨?_, ?_, ?_, ?_⟩ <;> decide

/-- C1 (amended): a proxied request whose path has no file extension is
normalized to the fixed index document path before the first upstream fetch,
so exactly one upstream fetch occurs, against the index URL; if the upstream
answers that fetch with 404, the caller receives the plaintext
`Origin Error: 404` diagnostic with status 404. The in-code 404 retry branch
never runs for such requests, because the path it tests has already been
normalized to one containing a dot. -/
theorem C1_extensionless_proxying (p : String) (up : String → Except String UpstreamResp)
    (hp : strContains p '.' = false) :
    (proxyToGitHub p up).2 = [indexUrl]
  ∧ (∀ r : UpstreamResp, up indexUrl = Except.ok r → r.status = 404 →
      (proxyToGitHub p up).1
        = { status := 404, headers := [("Content-Type", "text/plain")],
            body := .text ("Origin Error: 404 for " ++ indexUrl) }) := by
  have hnorm : normalizePath p = "/index.html" := by
    unfold normalizePath
    rw [if_pos (Or.inr hp)]
  have hurl : githubUrlOf p = indexUrl := by
    unfold githubUrlOf indexUrl
    rw [hnorm]
  have hdot : strContains (normalizePath p) '.' = true := by
    rw [hnorm]
    decide
  constructor
  · unfold proxyToGitHub
    rw [hurl]
    cases up indexUrl with
    | error e => rfl
    | ok response =>
      dsimp only
      by_cases hok : respOk response = false
      · rw [if_pos hok, if_neg (by rw [hdot]; simp)]
      · rw [if_neg hok]
  · intro r hr hst
    unfold proxyToGitHub
    rw [hurl, hr]
    have hok : respOk r = false := by
      unfold respOk
      rw [hst]
      decide
    dsimp only
    rw [if_pos hok, if_neg (by rw [hdot]; simp)]
    rw [hst]
    rfl

/-- C1 witness: instantiation at `/dashboard` with the all-404 upstream. -/
theorem C1_witness :
    (proxyToGitHub "/dashboard" upAll404).2 = [indexUrl]
  ∧ (proxyToGitHub "/dashboard" upAll404).1
      = { status := 404, headers := [("Content-Type", "text/plain")],
          body := .text ("Origin Error: 404 for " ++ indexUrl) } :=
  ⟨(C1_extensionless_proxying "/dashboard" upAll404 (by decide)).1,
   (C1_extensionless_proxying "/dashboard" upAll404 (by decide)).2
     ⟨404, [], "UPSTREAM-404-BODY"⟩ rfl rfl⟩

/-! ## Theorems: the client sync controller -/

/-- Concrete dataset delivered by the initial fetch. -/
def dLoaded : AppData :=
  ⟨[⟨"job-1", "2025-01-15", "Algebra", "Smith", "Eads", "Munster", 1, "8:00", "15:00", 7⟩], []⟩

/-- C2: evaluation of the sync controller at the failing input for the
claim. The initial load completes with dataset `dLoaded`, no local mutation
ever occurs, and 500 ms pass: a `saveData dLoaded` network write is issued.
The `isInitialMount` guard is consumed by the mount render — where
`isLoading` is still true and no save could happen anyway — so on the
load-completion render the effect runs with the guard already cleared and
`isLoading` false, schedules the debounced save of the just-fetched data,
and the save fires after the quiet period, with no mutation having
occurred. -/
theorem C2_save_issued_without_mutation :
    (syncRun [SyncEvent.loadComplete dLoaded, SyncEvent.tick 500]).saves
      = [(500, dLoaded)] := rfl

/-- One mutation step in Ready: the working dataset is updated and the
pending debounced save (if any) is replaced by one scheduled 500 ms from
now, capturing the new dataset. -/
theorem step_mutate (s : SyncState) (f : AppData → AppData)
    (hL : s.isLoading = false) (hM : s.isInitialMount = false) :
    syncStep s (SyncEvent.mutate f)
      = { s with data := f s.data, timer := some (s.now + 500, f s.data) } := by
  simp [syncStep, saveEffect, debouncedSave, hL, hM]

/-- A tick that ends before the pending timer is due only advances the
clock. -/
theorem step_tick_short (s : SyncState) (ms tf : Nat) (pl : AppData)
    (ht : s.timer = some (tf, pl)) (hlt : s.now + ms < tf) :
    syncStep s (SyncEvent.tick ms) = { s with now := s.now + ms } := by
  simp only [syncStep, fireTimer, ht]
  rw [if_neg (by omega)]

/-- A tick that reaches the pending timer fires it: the captured payload is
written to the network at the scheduled time and the timer is cleared. -/
theorem step_tick_fire (s : SyncState) (ms tf : Nat) (pl : AppData)
    (ht : s.timer = some (tf, pl)) (hge : tf ≤ s.now + ms) :
    syncStep s (SyncEvent.tick ms)
      = { s with now := s.now + ms, timer := none, saves := s.saves ++ [(tf, pl)] } := by
  simp only [syncStep, fireTimer, ht]
  rw [if_pos (by omega)]

/-- Burst encoding: each mutation paired with the gap until the next event. -/
def burstEvents : List ((AppData → AppData) × Nat) → List SyncEvent
  | [] => []
  | (f, g) :: rest => SyncEvent.mutate f :: SyncEvent.tick g :: burstEvents rest

/-- The dataset after applying a burst of mutations in order. -/
def applyBurst (d : AppData) : List ((AppData → AppData) × Nat) → AppData
  | [] => d
  | p :: rest => applyBurst (p.1 d) rest

/-- The total time elapsed over the gaps of a burst. -/
def burstGaps : List ((AppData → AppData) × Nat) → Nat
  | [] => 0
  | p :: rest => p.2 + burstGaps rest

/-- C7: while the controller is Ready (not loading, the initial-mount guard
consumed — true of every state after the mount render), a burst of K ≥ 1
mutations whose consecutive gaps are all strictly below the 500 ms debounce
window, followed by a quiet period of at least 500 ms, issues exactly one
network write: each mutation cancels the pending timer and reschedules it,
and the single save fires exactly 500 ms after the last mutation, with the
payload reflecting the dataset state after the last mutation. Here `ps`
lists the first K-1 mutations, each paired with the gap to the next
mutation, `fK` is the Kth mutation and `gK` the quiet period after it. -/
theorem C7_burst_single_save (ps : List ((AppData → AppData) × Nat)) :
    ∀ (s : SyncState) (fK : AppData → AppData) (gK : Nat),
      s.isLoading = false → s.isInitialMount = false →
      (∀ p ∈ ps, p.2 < 500) → 500 ≤ gK →
      (List.foldl syncStep s (burstEvents (ps ++ [(fK, gK)]))).saves
        = s.saves ++ [(s.now + burstGaps ps + 500, fK (applyBurst s.data ps))] := by
  induction ps with
  | nil =>
    intro s fK gK hL hM hps hg
    rw [List.nil_append]
    show (List.foldl syncStep s [SyncEvent.mutate fK, SyncEvent.tick gK]).saves = _
    rw [List.foldl_cons, List.foldl_cons, List.foldl_nil]
    rw [step_mutate s fK hL hM]
    rw [step_tick_fire _ gK (s.now + 500) (fK s.data) rfl
      (by show s.now + 500 ≤ s.now + gK; omega)]
    simp [burstGaps, applyBurst]
  | cons p rest ih =>
    intro s fK gK hL hM hps hg
    obtain ⟨f, g⟩ := p
    have hg0 : g < 500 := hps (f, g) (List.mem_cons_self _ _)
    have hrest : ∀ q ∈ rest, q.2 < 500 := fun q hq => hps q (List.mem_cons_of_mem _ hq)
    rw [List.cons_append]
    show (List.foldl syncStep s (SyncEvent.mutate f :: SyncEvent.tick g
        :: burstEvents (rest ++ [(fK, gK)]))).saves = _
    rw [List.foldl_cons, List.foldl_cons]
    rw [step_mutate s f hL hM]
    rw [step_tick_short _ g (s.now + 500) (f s.data) rfl
      (by show s.now + g < s.now + 500; omega)]
    dsimp only
    have hstep := ih
      { s with data := f s.data, timer := some (s.now + 500, f s.data), now := s.now + g }
      fK gK hL hM hrest hg
    dsimp only at hstep
    rw [hstep]
    show s.saves ++ [(s.now + g + burstGaps rest + 500, fK (applyBurst (f s.data) rest))] = _
    simp only [burstGaps, applyBurst]
    have harith : s.now + g + burstGaps rest + 500 = s.now + (g + burstGaps rest) + 500 := by
      omega
    rw [harith]

/-- Concrete job used by the burst witness. -/
def jobW : Job :=
  ⟨"job-2", "2025-02-01", "Biology", "Jones", "Highland High", "Highland", 1, "8:00", "15:00", 7⟩

/-- Concrete payment used by the burst witness. -/
def payW : Payment := ⟨"pay-1", "2025-02-15", "Highland", 250⟩

/-- First mutation of the burst witness: log a new job. -/
def addJobW : AppData → AppData := fun d => { d with jobs := jobW :: d.jobs }

/-- Second mutation of the burst witness: log a new payment. -/
def addPayW : AppData → AppData := fun d => { d with payments := payW :: d.payments }

/-- C7 witness: from the state right after an initial load of the empty
dataset, a burst of two mutations 100 ms apart followed by 600 ms of quiet
produces exactly one save, 500 ms after the second mutation, containing
both the new job and the new payment. -/
theorem C7_witness :
    (List.foldl syncStep (syncRun [SyncEvent.loadComplete ⟨[], []⟩])
        (burstEvents [(addJobW, 100), (addPayW, 600)])).saves
      = (syncRun [SyncEvent.loadComplete ⟨[], []⟩]).saves
          ++ [((syncRun [SyncEvent.loadComplete ⟨[], []⟩]).now
                + burstGaps [(addJobW, 100)] + 500,
               addPayW (applyBurst (syncRun [SyncEvent.loadComplete ⟨[], []⟩]).data
                 [(addJobW, 100)]))] :=
  C7_burst_single_save [(addJobW, 100)] (syncRun [SyncEvent.loadComplete ⟨[], []⟩])
    addPayW 600 rfl rfl
    (by
      intro p hp
      rw [List.mem_singleton] at hp
      subst hp
      decide)
    (by decide)

end SubTrack
